import Mathlib

/-!
# Verification of the Portfolio Prism IPC core (src-tauri)

Shallow embedding of the Rust IPC layer between the Tauri host and the
Python sidecar worker (`src/src-tauri/src/python_engine.rs`,
`src/src-tauri/src/lib.rs`), together with theorems settling the frozen
claims about the natural-language specification.

Modelling conventions:
* `serde_json::Value` is embedded as the inductive `Json`; the outcome of
  `serde_json::from_str` on a stdout line is an `Option Json`
  (`none` = the line is not valid JSON).
* Machine integers (`u64`, `u32`) are `Nat` with explicit `% 2 ^ 64`
  (resp. range checks `< 2 ^ 32`) where overflow or deserialization
  range matters.
* The engine's mutexed fields are gathered in an explicit `EngineState`
  record; each Rust method becomes a pure state-passing function.
* `tokio::sync::oneshot` senders are identified by their request id; a
  "send on the channel of id i" is reported in a function's result
  rather than by effect.
-/

/-- Embedding of `serde_json::Value`: JSON values. Numbers are modelled as
integers (`Int`), which covers every numeric field the protocol uses
(`id: u64`, `pid: u32`). -/
inductive Json where
  | null
  | bool (b : Bool)
  | num (n : Int)
  | str (s : String)
  | arr (elems : List Json)
  | obj (fields : List (String × Json))

/-- First-match lookup of a key in a JSON object's field list (a
`serde_json::Map` has no duplicate keys, so first-match agrees with map
lookup). -/
def jLookup : List (String × Json) → String → Option Json
  | [], _ => none
  | (k, v) :: rest, key => if k = key then some v else jLookup rest key

/-- `Value::get(key)`: field lookup, `none` on non-objects. -/
def jGet : Json → String → Option Json
  | .obj fields, key => jLookup fields key
  | _, _ => none

/-- `Value::as_str()`. -/
def jAsStr : Json → Option String
  | .str s => some s
  | _ => none

/-- `ReadySignal` (python_engine.rs lines 19-24): the handshake message
`{status, version, pid}` with `pid : u32`. -/
structure ReadySignal where
  status : String
  version : String
  pid : Nat
deriving DecidableEq

/-- `EngineError` (python_engine.rs lines 38-42). -/
structure EngineError where
  code : String
  message : String
deriving DecidableEq

/-- `EngineResponse` (python_engine.rs lines 27-35): `{id : u64, status,
data?, error?}`; `data` and `error` carry `#[serde(default)]`. -/
structure EngineResponse where
  id : Nat
  status : String
  data : Option Json
  error : Option EngineError

/-- `serde_json::from_value::<ReadySignal>`: requires an object with a
string `status`, a string `version` and a `pid` that fits in `u32`;
unknown fields are ignored (serde default). -/
def readySignalFromJson (j : Json) : Option ReadySignal :=
  match j with
  | .obj fields =>
    match jLookup fields "status", jLookup fields "version", jLookup fields "pid" with
    | some (.str st), some (.str ver), some (.num p) =>
        if 0 ≤ p ∧ p < 2 ^ 32 then some ⟨st, ver, p.toNat⟩ else none
    | _, _, _ => none
  | _ => none

/-- `serde_json::from_value::<EngineError>`: object with string `code`
and string `message`. -/
def engineErrorFromJson (j : Json) : Option EngineError :=
  match j with
  | .obj fields =>
    match jLookup fields "code", jLookup fields "message" with
    | some (.str c), some (.str m) => some ⟨c, m⟩
    | _, _ => none
  | _ => none

/-- `serde_json::from_value::<EngineResponse>`: object with a `u64` `id`
and a string `status`; `data : Option<Value>` defaults to `None` when
absent and deserializes JSON `null` to `None`; likewise
`error : Option<EngineError>`, whose payload must itself deserialize when
present and non-null. -/
def engineResponseFromJson (j : Json) : Option EngineResponse :=
  match j with
  | .obj fields =>
    match jLookup fields "id", jLookup fields "status" with
    | some (.num i), some (.str st) =>
        if 0 ≤ i ∧ i < 2 ^ 64 then
          let d : Option Json :=
            match jLookup fields "data" with
            | none => none
            | some .null => none
            | some v => some v
          match jLookup fields "error" with
          | none => some ⟨i.toNat, st, d, none⟩
          | some .null => some ⟨i.toNat, st, d, none⟩
          | some ev =>
            match engineErrorFromJson ev with
            | some e => some ⟨i.toNat, st, d, some e⟩
            | none => none
        else none
    | _, _ => none
  | _ => none

/-- `StdoutMessage` (python_engine.rs lines 182-186). -/
inductive StdoutMessage where
  | Ready (signal : ReadySignal)
  | Response (response : EngineResponse)

/-- `PythonEngine::parse_stdout` (python_engine.rs lines 166-178). The
argument is the outcome of `serde_json::from_str` on the line: `none`
when the line is not valid JSON (the first `.ok()?`). If the parsed
value's top-level `status` field is the string `"ready"`, only the
`ReadySignal` interpretation is attempted (`.ok()?` on failure makes the
whole call return `none`); otherwise the `EngineResponse` interpretation
is attempted. -/
def parse_stdout (line : Option Json) : Option StdoutMessage :=
  match line with
  | none => none
  | some json =>
    if (jGet json "status").bind jAsStr = some "ready" then
      match readySignalFromJson json with
      | some signal => some (.Ready signal)
      | none => none
    else
      match engineResponseFromJson json with
      | some response => some (.Response response)
      | none => none

/-- `2 ^ 64`: the modulus of the wrapping `AtomicU64` id counter. -/
def U64_MOD : Nat := 2 ^ 64

/-- `COMMAND_TIMEOUT_SECS` (python_engine.rs line 16). -/
def COMMAND_TIMEOUT_SECS : Nat := 30

/-- `AtomicU64::fetch_add(1, Ordering::SeqCst)` (python_engine.rs line
106): returns the previous counter value and increments it, wrapping
modulo `2 ^ 64`. `SeqCst` makes concurrent calls linearizable, so any
interleaving of allocations is some sequence of these atomic steps. -/
def fetch_add (counter : Nat) : Nat × Nat :=
  (counter, (counter + 1) % U64_MOD)

/-- Counter value before the `n`-th (0-indexed) allocation; the counter
starts at `AtomicU64::new(1)` (python_engine.rs line 64). -/
def counterBefore : Nat → Nat
  | 0 => 1
  | n + 1 => (fetch_add (counterBefore n)).2

/-- The id returned by the `n`-th (0-indexed) `fetch_add` allocation. -/
def nthAllocatedId (n : Nat) : Nat := (fetch_add (counterBefore n)).1

/-- The mutexed fields of `PythonEngine` (python_engine.rs lines 45-56).
`child` keeps only the presence of the `CommandChild` handle; `pending`
keeps the set of registered request ids (each id identifies its oneshot
sender). -/
structure EngineState where
  child : Option Unit
  pending : List Nat
  next_id : Nat
  connected : Bool
  version : Option String

/-- `HashMap::remove(&id)` on the pending table, restricted to the key
set: drop every occurrence of `id`. -/
def removeId (l : List Nat) (id : Nat) : List Nat :=
  l.filter (fun x => x ≠ id)

/-- `PythonEngine::new` (python_engine.rs lines 60-68). -/
def PythonEngine.new : EngineState :=
  { child := none, pending := [], next_id := 1, connected := false, version := none }

/-- `PythonEngine::set_child` (python_engine.rs lines 71-74). -/
def set_child (s : EngineState) : EngineState :=
  { s with child := some () }

/-- `PythonEngine::set_connected` (python_engine.rs lines 77-82). -/
def set_connected (s : EngineState) (version : String) : EngineState :=
  { s with connected := true, version := some version }

/-- `PythonEngine::handle_response` (python_engine.rs lines 158-163):
`pending.remove(&response.id)`; when a sender was registered under that
id, send the response into it (reported as `some response`), otherwise
do nothing (`none`). -/
def handle_response (s : EngineState) (response : EngineResponse) :
    EngineState × Option EngineResponse :=
  if response.id ∈ s.pending then
    ({ s with pending := removeId s.pending response.id }, some response)
  else
    (s, none)

/-- How the `timeout(Duration::from_secs(COMMAND_TIMEOUT_SECS), rx)`
await of python_engine.rs line 141 resolves for one call: the oneshot
receiver yields a response (`rx` resolved by `handle_response`), the
sender is dropped (`Ok(Err(_))` — channel closed), or the 30-second
timer fires first (`Err(_)`). -/
inductive AwaitOutcome where
  | received (response : EngineResponse)
  | channelClosed
  | timedOut

/-- The bound, in seconds, that `send_command` passes to `timeout` on
python_engine.rs line 141. It is the constant `COMMAND_TIMEOUT_SECS`:
`send_command` has no timeout parameter. -/
def send_command_await_bound : Nat := COMMAND_TIMEOUT_SECS

/-- `PythonEngine::send_command` (python_engine.rs lines 95-155) as a
pure function of the engine state and of two environment inputs:
`writeErr` is the outcome of `child.write` (`some e` = write failure
with error text `e`), and `outcome` is how the await on line 141
resolves. Result: the state after `send_command`'s own mutations, the
`Result<EngineResponse, String>` returned to the caller, and the JSON
frame written to the worker's stdin (`none` when nothing was written).
In the `received` branch the pending entry is absent from the real
table, but it was removed by `handle_response` (the sender side), not
by `send_command`, so this function leaves it in place there. -/
def send_command (s : EngineState) (command : String) (payload : Json)
    (writeErr : Option String) (outcome : AwaitOutcome) :
    EngineState × Except String EngineResponse × Option Json :=
  if s.connected = false then
    (s, .error "Python engine not connected", none)
  else
    let id := s.next_id
    let s1 : EngineState := { s with next_id := (s.next_id + 1) % U64_MOD }
    let s2 : EngineState := { s1 with pending := id :: s1.pending }
    let cmd : Json := .obj [("id", .num (id : Int)), ("command", .str command),
      ("payload", payload)]
    match s2.child with
    | none =>
        ({ s2 with pending := removeId s2.pending id },
         .error "Child process not available", none)
    | some _ =>
      match writeErr with
      | some e =>
          ({ s2 with pending := removeId s2.pending id },
           .error ("Failed to write to stdin: " ++ e), none)
      | none =>
        match outcome with
        | .received r => (s2, .ok r, some cmd)
        | .channelClosed =>
            ({ s2 with pending := removeId s2.pending id },
             .error "Response channel closed", some cmd)
        | .timedOut =>
            ({ s2 with pending := removeId s2.pending id },
             .error ("Command timed out after " ++ toString COMMAND_TIMEOUT_SECS
               ++ " seconds"), some cmd)

/-- Modelled from the spec: `PythonEngine::set_disconnected`, which
lib.rs lines 123 and 135 call on `CommandEvent::Error` and
`CommandEvent::Terminated` but which is not defined in the sources under
src/. Per spec §4.3/§4.4: "Connection State transitions to Disconnected;
every still-pending request in the Correlation Table is cancelled and
each blocked dispatcher is released with `ChannelClosed`". Clearing the
pending table drops every registered oneshot sender; the second
component lists the ids whose blocked dispatchers are thereby released
(each of their `rx` awaits resolves as `AwaitOutcome.channelClosed`). -/
def set_disconnected (s : EngineState) : EngineState × List Nat :=
  ({ s with connected := false, pending := [] }, s.pending)

/-- What the stdout router task does with one classified line
(lib.rs lines 87-115): raise the connected event, deliver a response, or
log the line as diagnostic text. -/
inductive RouterAction where
  | connectedEvent (version : String)
  | completed (delivered : Option EngineResponse)
  | diagnostic

/-- One iteration of the stdout router loop of lib.rs lines 87-115 on a
non-empty trimmed line: classify via `parse_stdout`; `Ready` updates the
connection state, `Response` goes to `handle_response`, an unclassified
line is printed as diagnostic output and touches no state. -/
def routerStep (s : EngineState) (line : Option Json) : EngineState × RouterAction :=
  match parse_stdout line with
  | some (.Ready signal) => (set_connected s signal.version, .connectedEvent signal.version)
  | some (.Response response) =>
      let res := handle_response s response
      (res.1, .completed res.2)
  | none => (s, .diagnostic)

/-- The three-way classification of a stdout line induced by
`parse_stdout`. -/
inductive LineClass where
  | handshake
  | response
  | diagnostic
deriving DecidableEq

/-- Classify one stdout line into exactly one of the three variants. -/
def classify (line : Option Json) : LineClass :=
  match parse_stdout line with
  | some (.Ready _) => .handshake
  | some (.Response _) => .response
  | none => .diagnostic

/-- Modelled from the spec: the contract `send(command, payload,
timeout)` of spec §4.2, whose await bound is the caller-supplied
`timeout` "(default 30s)". Compared against `send_command_await_bound`,
the bound the source actually uses. -/
def spec_send_await_bound (timeout : Option Nat) : Nat :=
  timeout.getD 30

/-- Modelled from the spec: the world state of the Instance Guard of
spec §4.5, which has no implementation under src/. `holder` is the pid
owning the exclusive advisory lock on the well-known lock-file path;
`live` is the set of currently live processes. -/
structure GuardWorld where
  holder : Option Nat
  live : List Nat

/-- Modelled from the spec: the result of an Instance Guard `acquire`
attempt; `alreadyRunning` is a variant of its own, distinct by
construction from a generic I/O error. -/
inductive AcquireResult where
  | acquired
  | alreadyRunning
  | ioError (e : String)
deriving DecidableEq

/-- Modelled from the spec: `acquire(path)` of spec §4.5 — an exclusive
non-blocking lock attempt. Contention with a live holder reports
`alreadyRunning` (never `ioError`); a lock left behind by a dead process
is an OS advisory lock already released with that process, so the
attempt succeeds. -/
def acquire (w : GuardWorld) (pid : Nat) : GuardWorld × AcquireResult :=
  match w.holder with
  | some p =>
      if p ∈ w.live then (w, .alreadyRunning)
      else ({ holder := some pid, live := w.live }, .acquired)
  | none => ({ w with holder := some pid }, .acquired)

/-- Modelled from the spec: process termination (normal or abnormal) of
spec §4.5 — the OS releases the advisory lock with the process; there is
no explicit unlock operation in the model, matching "no explicit unlock
call". -/
def terminate (w : GuardWorld) (pid : Nat) : GuardWorld :=
  { holder := if w.holder = some pid then none else w.holder,
    live := w.live.filter (fun q => q ≠ pid) }

/-! ## Helper lemmas -/

theorem mem_removeId {l : List Nat} {a i : Nat} :
    a ∈ removeId l i ↔ a ∈ l ∧ a ≠ i := by
  simp [removeId, List.mem_filter]

theorem not_mem_removeId_self (l : List Nat) (i : Nat) : i ∉ removeId l i := by
  simp [mem_removeId]

theorem removeId_eq_self {l : List Nat} {i : Nat} (h : i ∉ l) : removeId l i = l := by
  rw [removeId, List.filter_eq_self]
  intro a ha
  simp only [decide_eq_true_eq]
  intro e
  exact h (e ▸ ha)

theorem removeId_cons_self (l : List Nat) (i : Nat) :
    removeId (i :: l) i = removeId l i := by
  simp [removeId, List.filter_cons]

theorem counterBefore_closed (n : Nat) : counterBefore n = (1 + n) % U64_MOD := by
  induction n with
  | zero => rfl
  | succ n ih =>
    show (counterBefore n + 1) % U64_MOD = (1 + (n + 1)) % U64_MOD
    rw [ih, Nat.mod_add_mod, Nat.add_assoc]

theorem U64_MOD_lit : U64_MOD = 18446744073709551616 := by norm_num [U64_MOD]

/-! ## Claim theorems -/

/-- C2 counterexample: the id allocator of `send_command` is the wrapping
64-bit `fetch_add` of python_engine.rs line 106, so allocated ids are
*not* pairwise distinct over every allocation sequence: allocation 0 and
allocation `2 ^ 64` both return id 1 (and monotonicity also fails when
the counter wraps). -/
theorem c2_allocation_counterexample :
    nthAllocatedId 0 = 1 ∧ nthAllocatedId (2 ^ 64) = 1 ∧ (0 : Nat) ≠ 2 ^ 64 := by
  refine ⟨rfl, ?_, by norm_num⟩
  have h : nthAllocatedId (2 ^ 64) = (1 + 2 ^ 64) % U64_MOD := counterBefore_closed (2 ^ 64)
  rw [h, U64_MOD]
  norm_num

/-- C2 amended: as long as the 64-bit counter does not wrap — i.e. among
the first `2 ^ 64 - 1` allocations — the ids returned by `send_command`'s
`fetch_add` allocator are strictly increasing and pairwise distinct under
any (linearized) sequence of concurrent invocations, and no id recurs
after its request completes or times out. -/
theorem c2_allocation_monotone (m n : Nat) (hmn : m < n) (hn : n < U64_MOD - 1) :
    nthAllocatedId m < nthAllocatedId n ∧ nthAllocatedId m ≠ nthAllocatedId n := by
  have hM := U64_MOD_lit
  have em : nthAllocatedId m = 1 + m := by
    have h : nthAllocatedId m = (1 + m) % U64_MOD := counterBefore_closed m
    rw [h]
    exact Nat.mod_eq_of_lt (by omega)
  have en : nthAllocatedId n = 1 + n := by
    have h : nthAllocatedId n = (1 + n) % U64_MOD := counterBefore_closed n
    rw [h]
    exact Nat.mod_eq_of_lt (by omega)
  constructor <;> omega

/-- Witness for C2 amended at allocations 0 and 1. -/
theorem c2_allocation_monotone_witness :
    nthAllocatedId 0 < nthAllocatedId 1 ∧ nthAllocatedId 0 ≠ nthAllocatedId 1 :=
  c2_allocation_monotone 0 1 (by norm_num) (by rw [U64_MOD_lit]; norm_num)

/-- C3: `handle_response` resolves the registered slot at most once and
removes it from the pending table: if the id is pending, the response is
sent into its slot and the id is removed; if the id is not pending (late,
duplicate, unknown, or post-cancellation reply), the call is a no-op that
returns the state unchanged; and a repeated `handle_response` with the
same id after a first one never delivers a second time. `handle_response`
is a total function, so no input makes it panic. -/
theorem c3_handle_response_at_most_once (s : EngineState) (r : EngineResponse) :
    (r.id ∈ s.pending →
      (handle_response s r).2 = some r ∧
      (handle_response s r).1.pending = removeId s.pending r.id ∧
      r.id ∉ (handle_response s r).1.pending) ∧
    (r.id ∉ s.pending → handle_response s r = (s, none)) ∧
    handle_response (handle_response s r).1 r = ((handle_response s r).1, none) := by
  by_cases h : r.id ∈ s.pending
  · refine ⟨fun _ => ?_, fun h' => absurd h h', ?_⟩
    · simp [handle_response, h, not_mem_removeId_self]
    · simp [handle_response, h, not_mem_removeId_self]
  · refine ⟨fun h' => absurd h' h, fun _ => ?_, ?_⟩
    · simp [handle_response, h]
    · simp [handle_response, h]

/-- Witness for C3: a pending id 1 is delivered and removed; the same
response replayed is a no-op, as is a response for the unknown id 3. -/
theorem c3_handle_response_witness :
    ((handle_response ⟨some (), [1, 2], 3, true, some "1.0"⟩
        ⟨1, "success", none, none⟩).2 = some ⟨1, "success", none, none⟩ ∧
      (handle_response ⟨some (), [1, 2], 3, true, some "1.0"⟩
        ⟨1, "success", none, none⟩).1.pending =
          removeId [1, 2] 1 ∧
      (1 : Nat) ∉ (handle_response ⟨some (), [1, 2], 3, true, some "1.0"⟩
        ⟨1, "success", none, none⟩).1.pending) ∧
    handle_response ⟨some (), [1, 2], 3, true, some "1.0"⟩ ⟨3, "success", none, none⟩ =
      (⟨some (), [1, 2], 3, true, some "1.0"⟩, none) :=
  ⟨(c3_handle_response_at_most_once ⟨some (), [1, 2], 3, true, some "1.0"⟩
      ⟨1, "success", none, none⟩).1 (by decide),
   (c3_handle_response_at_most_once ⟨some (), [1, 2], 3, true, some "1.0"⟩
      ⟨3, "success", none, none⟩).2.1 (by decide)⟩

/-- C4: when the await of python_engine.rs line 141 ends in timeout,
`send_command` returns the `Timeout` error string and removes the pending
slot it registered (restoring the table, since the freshly allocated id
was not previously present), so a response arriving later for that id is
dropped by `handle_response` as a no-op. -/
theorem c4_timeout_removes_slot (s : EngineState) (c : String) (p : Json)
    (h1 : s.connected = true) (h2 : s.child = some ()) (h3 : s.next_id ∉ s.pending) :
    (send_command s c p none .timedOut).2.1 =
      .error "Command timed out after 30 seconds" ∧
    (send_command s c p none .timedOut).1.pending = s.pending ∧
    s.next_id ∉ (send_command s c p none .timedOut).1.pending ∧
    ∀ r : EngineResponse, r.id = s.next_id →
      handle_response (send_command s c p none .timedOut).1 r =
        ((send_command s c p none .timedOut).1, none) := by
  have hp : (send_command s c p none .timedOut).1.pending = s.pending := by
    simp [send_command, h1, h2, removeId_cons_self, removeId_eq_self h3]
  refine ⟨?_, hp, ?_, ?_⟩
  · have hs : ("Command timed out after " ++ toString COMMAND_TIMEOUT_SECS ++ " seconds")
        = "Command timed out after 30 seconds" := rfl
    simp [send_command, h1, h2, hs]
  · rw [hp]; exact h3
  · intro r hr
    have hnot : r.id ∉ (send_command s c p none .timedOut).1.pending := by
      rw [hp, hr]; exact h3
    simp [handle_response, hnot]

/-- Witness for C4 at a concrete connected state with pending table
`[7]` and next id 3. -/
theorem c4_timeout_removes_slot_witness :
    (send_command ⟨some (), [7], 3, true, some "1.0"⟩ "get_health" .null
        none .timedOut).2.1 = .error "Command timed out after 30 seconds" ∧
    (send_command ⟨some (), [7], 3, true, some "1.0"⟩ "get_health" .null
        none .timedOut).1.pending = [7] ∧
    (3 : Nat) ∉ (send_command ⟨some (), [7], 3, true, some "1.0"⟩ "get_health" .null
        none .timedOut).1.pending ∧
    handle_response (send_command ⟨some (), [7], 3, true, some "1.0"⟩ "get_health" .null
        none .timedOut).1 ⟨3, "success", none, none⟩ =
      ((send_command ⟨some (), [7], 3, true, some "1.0"⟩ "get_health" .null
        none .timedOut).1, none) := by
  have h := c4_timeout_removes_slot ⟨some (), [7], 3, true, some "1.0"⟩ "get_health" .null
    rfl rfl (by decide)
  exact ⟨h.1, h.2.1, h.2.2.1, h.2.2.2 ⟨3, "success", none, none⟩ rfl⟩

/-- C1: on a process-exit or error event from the supervisor (lib.rs
lines 121-144 route `CommandEvent::Error` and `CommandEvent::Terminated`
to `set_disconnected`), the connection state becomes Disconnected, the
correlation table is emptied, and every previously pending id's oneshot
sender is dropped, so each blocked dispatcher's await resolves as
channel-closed: `send_command` then returns the "Response channel
closed" error, which is not the timeout error — no dispatcher is left
to wait out its individual 30-second bound. -/
theorem c1_disconnect_cancels_pending (s sc : EngineState) (c : String) (p : Json)
    (h1 : sc.connected = true) (h2 : sc.child = some ()) :
    (set_disconnected s).1.connected = false ∧
    (set_disconnected s).1.pending = [] ∧
    (set_disconnected s).2 = s.pending ∧
    (send_command sc c p none .channelClosed).2.1 = .error "Response channel closed" ∧
    (send_command sc c p none .channelClosed).2.1 ≠
      .error ("Command timed out after " ++ toString COMMAND_TIMEOUT_SECS ++ " seconds") := by
  refine ⟨rfl, rfl, rfl, ?_, ?_⟩
  · simp [send_command, h1, h2]
  · simp [send_command, h1, h2]
    decide

/-- Witness for C1 at a state with two pending requests. -/
theorem c1_disconnect_cancels_pending_witness :
    (set_disconnected ⟨some (), [4, 9], 11, true, some "1.0"⟩).1.connected = false ∧
    (set_disconnected ⟨some (), [4, 9], 11, true, some "1.0"⟩).1.pending = [] ∧
    (set_disconnected ⟨some (), [4, 9], 11, true, some "1.0"⟩).2 = [4, 9] ∧
    (send_command ⟨some (), [4, 9], 11, true, some "1.0"⟩ "sync_portfolio" .null
        none .channelClosed).2.1 = .error "Response channel closed" ∧
    (send_command ⟨some (), [4, 9], 11, true, some "1.0"⟩ "sync_portfolio" .null
        none .channelClosed).2.1 ≠
      .error ("Command timed out after " ++ toString COMMAND_TIMEOUT_SECS ++ " seconds") :=
  c1_disconnect_cancels_pending ⟨some (), [4, 9], 11, true, some "1.0"⟩
    ⟨some (), [4, 9], 11, true, some "1.0"⟩ "sync_portfolio" .null rfl rfl

/-- C5: every stdout line is classified into exactly one of the three
variants (`classify` is a total function into a three-variant type); a
line that is not valid JSON, and more generally any line on which
`parse_stdout` yields no structured message, is routed to the diagnostic
sink by the router and leaves the whole engine state — connection state
and correlation table included — unchanged; and the handshake
interpretation is attempted before the response interpretation: a line
whose top-level `status` is `"ready"` is never classified as a
response. -/
theorem c5_line_classification (s : EngineState) (j : Json) :
    routerStep s none = (s, .diagnostic) ∧
    (parse_stdout (some j) = none → routerStep s (some j) = (s, .diagnostic)) ∧
    ((jGet j "status").bind jAsStr = some "ready" →
      ∀ r, parse_stdout (some j) ≠ some (.Response r)) ∧
    (∀ line, classify line = .handshake ∨ classify line = .response ∨
      classify line = .diagnostic) := by
  refine ⟨rfl, ?_, ?_, ?_⟩
  · intro h
    simp [routerStep, h]
  · intro h r
    simp only [parse_stdout, h, if_pos]
    cases readySignalFromJson j <;> simp
  · intro line
    unfold classify
    cases hp : parse_stdout line with
    | none => exact Or.inr (Or.inr rfl)
    | some m =>
      cases m with
      | Ready _ => exact Or.inl rfl
      | Response _ => exact Or.inr (Or.inl rfl)

/-- Witness for C5: the non-JSON line is diagnosed with the state
untouched, and a concrete ready line is never a response. -/
theorem c5_line_classification_witness :
    routerStep ⟨some (), [4], 5, true, some "1.0"⟩ (some (.str "not json at all")) =
      (⟨some (), [4], 5, true, some "1.0"⟩, .diagnostic) ∧
    ∀ r, parse_stdout (some (.obj [("status", .str "ready"), ("version", .str "1.2.3"),
      ("pid", .num 42)])) ≠ some (.Response r) :=
  ⟨(c5_line_classification ⟨some (), [4], 5, true, some "1.0"⟩
      (.str "not json at all")).2.1 rfl,
   (c5_line_classification ⟨some (), [4], 5, true, some "1.0"⟩
      (.obj [("status", .str "ready"), ("version", .str "1.2.3"), ("pid", .num 42)])).2.2.1
      rfl⟩

/-- C6 counterexample: the spec's dispatcher contract takes a
caller-supplied timeout (bounding the await by it, e.g. 5 seconds), but
`send_command` has no timeout parameter and always awaits
`send_command_await_bound = COMMAND_TIMEOUT_SECS` = 30 seconds: at the
concrete caller-supplied timeout 5 the two bounds differ. -/
theorem c6_timeout_argument_counterexample :
    spec_send_await_bound (some 5) = 5 ∧ send_command_await_bound = 30 ∧
    spec_send_await_bound (some 5) ≠ send_command_await_bound := by
  refine ⟨rfl, rfl, by decide⟩

/-- C6 amended: `send_command` exposes no timeout parameter; every call
awaits up to the fixed bound `COMMAND_TIMEOUT_SECS` = 30 seconds, which
coincides with the spec contract's default (the `none` case), and the
timeout error it reports names that fixed bound. -/
theorem c6_fixed_timeout_bound :
    send_command_await_bound = 30 ∧
    spec_send_await_bound none = send_command_await_bound ∧
    (send_command ⟨some (), [], 1, true, some "1.0"⟩ "get_health" .null
        none .timedOut).2.1 =
      .error ("Command timed out after " ++ toString send_command_await_bound
        ++ " seconds") :=
  ⟨rfl, rfl, rfl⟩

/-- C7 counterexample: the reply line `{"id": 1, "status": 7}` carries
the id 1 of a currently pending request but an unexpected payload shape
(`status` is not a string). The code surfaces no `MalformedResponse`
error to the waiting caller and does not consume the slot: the line
fails response parsing, `parse_stdout` classifies it as diagnostic text,
and after the router step id 1 is still pending. -/
theorem c7_malformed_response_counterexample :
    parse_stdout (some (.obj [("id", .num 1), ("status", .num 7)])) = none ∧
    routerStep ⟨some (), [1], 2, true, some "1.0"⟩
        (some (.obj [("id", .num 1), ("status", .num 7)])) =
      (⟨some (), [1], 2, true, some "1.0"⟩, .diagnostic) ∧
    (1 : Nat) ∈ (routerStep ⟨some (), [1], 2, true, some "1.0"⟩
        (some (.obj [("id", .num 1), ("status", .num 7)]))).1.pending :=
  ⟨rfl, rfl, by decide⟩

/-- C7 amended: a reply line whose payload shape fails `EngineResponse`
parsing (and is not a ready signal) is routed to the diagnostic sink
even when it carries the id of a currently pending request; no error is
surfaced to the waiting caller, the completion slot is not consumed, and
the pending table is left unchanged (the request later ends by response,
cancellation, or timeout). -/
theorem c7_malformed_response_is_diagnostic (s : EngineState) (j : Json)
    (h1 : (jGet j "status").bind jAsStr ≠ some "ready")
    (h2 : engineResponseFromJson j = none) :
    routerStep s (some j) = (s, .diagnostic) ∧
    (routerStep s (some j)).1.pending = s.pending := by
  have hparse : parse_stdout (some j) = none := by
    simp [parse_stdout, h1, h2]
  refine ⟨by simp [routerStep, hparse], by simp [routerStep, hparse]⟩

/-- Witness for C7 amended at the counterexample's line and a state with
pending id 1. -/
theorem c7_malformed_response_is_diagnostic_witness :
    routerStep ⟨some (), [1], 2, true, some "1.0"⟩
        (some (.obj [("id", .num 1), ("status", .num 7)])) =
      (⟨some (), [1], 2, true, some "1.0"⟩, .diagnostic) ∧
    (routerStep ⟨some (), [1], 2, true, some "1.0"⟩
        (some (.obj [("id", .num 1), ("status", .num 7)]))).1.pending = [1] :=
  c7_malformed_response_is_diagnostic ⟨some (), [1], 2, true, some "1.0"⟩
    (.obj [("id", .num 1), ("status", .num 7)]) (by decide) rfl

/-- C8 (modelled from the spec, §4.5): while a live process holds the
instance lock, an acquisition by another process returns the dedicated
`alreadyRunning` result — by construction never a generic `ioError` —
and leaves the holder in place; the model offers no unlock operation, so
the holder keeps the lock until its process terminates, termination
(normal or abnormal) releases it, and a subsequent acquisition
succeeds. -/
theorem c8_instance_guard (w : GuardWorld) (p q : Nat)
    (h0 : w.holder = none) (hlive : p ∈ w.live) :
    (acquire w p).2 = .acquired ∧
    (acquire w p).1.holder = some p ∧
    (acquire (acquire w p).1 q).2 = .alreadyRunning ∧
    (∀ e, (acquire (acquire w p).1 q).2 ≠ .ioError e) ∧
    (acquire (acquire w p).1 q).1 = (acquire w p).1 ∧
    (terminate (acquire w p).1 p).holder = none ∧
    (acquire (terminate (acquire w p).1 p) q).2 = .acquired := by
  have hw : acquire w p = ({ w with holder := some p }, .acquired) := by
    simp [acquire, h0]
  have hw2 : acquire ({ w with holder := some p } : GuardWorld) q =
      ({ w with holder := some p }, .alreadyRunning) := by
    simp [acquire, hlive]
  have ht : (terminate ({ w with holder := some p } : GuardWorld) p).holder = none := by
    simp [terminate]
  refine ⟨by rw [hw], by rw [hw], by rw [hw, hw2], ?_, by rw [hw, hw2], by rw [hw]; exact ht, ?_⟩
  · intro e
    rw [hw, hw2]
    simp
  · rw [hw]
    simp [acquire, ht]

/-- Witness for C8: processes 1 and 2 contending for the lock in a world
where both are live. -/
theorem c8_instance_guard_witness :
    (acquire ⟨none, [1, 2]⟩ 1).2 = .acquired ∧
    (acquire ⟨none, [1, 2]⟩ 1).1.holder = some 1 ∧
    (acquire (acquire ⟨none, [1, 2]⟩ 1).1 2).2 = .alreadyRunning ∧
    (∀ e, (acquire (acquire ⟨none, [1, 2]⟩ 1).1 2).2 ≠ .ioError e) ∧
    (acquire (acquire ⟨none, [1, 2]⟩ 1).1 2).1 = (acquire ⟨none, [1, 2]⟩ 1).1 ∧
    (terminate (acquire ⟨none, [1, 2]⟩ 1).1 1).holder = none ∧
    (acquire (terminate (acquire ⟨none, [1, 2]⟩ 1).1 1) 2).2 = .acquired :=
  c8_instance_guard ⟨none, [1, 2]⟩ 1 2 rfl (by decide)

/-- C9: `parse_stdout` is a total function, and the handshake
interpretation has priority: for any JSON value whose top-level `status`
field is the string `"ready"`, the line is never classified as a
correlated response; when the `ReadySignal` deserialization fails (e.g.
the required `version` or `pid` field is missing), the whole call yields
`none` — diagnostic text — without the response interpretation being
attempted; and a router step on such a line never touches the pending
table, so it can never complete a pending request. -/
theorem c9_ready_priority (j : Json)
    (h : (jGet j "status").bind jAsStr = some "ready") :
    (∀ r, parse_stdout (some j) ≠ some (.Response r)) ∧
    (readySignalFromJson j = none → parse_stdout (some j) = none) ∧
    (∀ s : EngineState, (routerStep s (some j)).1.pending = s.pending) := by
  refine ⟨?_, ?_, ?_⟩
  · intro r
    simp only [parse_stdout, h, if_pos]
    cases readySignalFromJson j <;> simp
  · intro hr
    simp [parse_stdout, h, hr]
  · intro s
    simp only [routerStep, parse_stdout, h, if_pos]
    cases readySignalFromJson j with
    | none => rfl
    | some sig => simp [set_connected]

/-- Witness for C9 at `{"status": "ready"}` (missing `version` and
`pid`): never a response, parsed to `none`, pending table untouched. -/
theorem c9_ready_priority_witness :
    (∀ r, parse_stdout (some (.obj [("status", .str "ready")])) ≠ some (.Response r)) ∧
    parse_stdout (some (.obj [("status", .str "ready")])) = none ∧
    (routerStep ⟨some (), [4], 5, true, some "1.0"⟩
      (some (.obj [("status", .str "ready")]))).1.pending = [4] :=
  ⟨(c9_ready_priority (.obj [("status", .str "ready")]) rfl).1,
   (c9_ready_priority (.obj [("status", .str "ready")]) rfl).2.1 rfl,
   (c9_ready_priority (.obj [("status", .str "ready")]) rfl).2.2
     ⟨some (), [4], 5, true, some "1.0"⟩⟩

/-- C10: when the engine is marked connected but no child handle has
been set, `send_command` removes the pending entry it just registered
and returns exactly `"Child process not available"`, leaving the pending
table as before the call (the freshly allocated id was not previously
registered) and writing nothing to the worker; that error string differs
from every error the spec's taxonomy covers on this path
(`NotConnected`, `ChannelClosed`, `Timeout`, and every `WriteFailure`
message, all of which start with `"Failed to write to stdin: "`). -/
theorem c10_child_not_available (s : EngineState) (c : String) (p : Json)
    (we : Option String) (outcome : AwaitOutcome)
    (h1 : s.connected = true) (h2 : s.child = none) (h3 : s.next_id ∉ s.pending) :
    (send_command s c p we outcome).2.1 = .error "Child process not available" ∧
    (send_command s c p we outcome).1.pending = s.pending ∧
    (send_command s c p we outcome).2.2 = none ∧
    "Child process not available" ≠ "Python engine not connected" ∧
    "Child process not available" ≠ "Response channel closed" ∧
    "Child process not available" ≠ "Command timed out after 30 seconds" ∧
    (∀ e : String, "Child process not available" ≠ "Failed to write to stdin: " ++ e) := by
  refine ⟨?_, ?_, ?_, by decide, by decide, by decide, ?_⟩
  · simp [send_command, h1, h2]
  · simp [send_command, h1, h2, removeId_cons_self, removeId_eq_self h3]
  · simp [send_command, h1, h2]
  · intro e he
    have hd := congrArg String.data he
    rw [String.data_append] at hd
    have d1 : ("Child process not available" : String).data =
        'C' :: ("hild process not available" : String).data := rfl
    have d2 : ("Failed to write to stdin: " : String).data =
        'F' :: ("ailed to write to stdin: " : String).data := rfl
    rw [d1, d2] at hd
    simp at hd

/-- Witness for C10 at a connected state whose child handle is `none`. -/
theorem c10_child_not_available_witness :
    (send_command ⟨none, [4], 7, true, some "1.0"⟩ "get_health" .null
        none .timedOut).2.1 = .error "Child process not available" ∧
    (send_command ⟨none, [4], 7, true, some "1.0"⟩ "get_health" .null
        none .timedOut).1.pending = [4] ∧
    (send_command ⟨none, [4], 7, true, some "1.0"⟩ "get_health" .null
        none .timedOut).2.2 = none :=
  ⟨(c10_child_not_available ⟨none, [4], 7, true, some "1.0"⟩ "get_health" .null
      none .timedOut rfl rfl (by decide)).1,
   (c10_child_not_available ⟨none, [4], 7, true, some "1.0"⟩ "get_health" .null
      none .timedOut rfl rfl (by decide)).2.1,
   (c10_child_not_available ⟨none, [4], 7, true, some "1.0"⟩ "get_health" .null
      none .timedOut rfl rfl (by decide)).2.2.1⟩
